import Mathlib

/-!
Shallow embedding of the dms-rag retrieval-and-answer pipeline.

The definitions below translate the Python sources:
  src/doc_chunker.py  (DocumentChunker.chunk_folder)
  src/database.py     (DatabaseManager.setup_collection, _populate_collection)
  src/chatbot.py      (Chatbot._setup_llm, _retrieve_context, _generate_answer, ask)

External capabilities (the text splitter, the embedding model, the vector
index's nearest-neighbour search, and the LLM network calls) are modelled as
function parameters; file loading is modelled by `Option` arguments (`none`
meaning the file is missing) since `np.load`/`json.load` only run after an
existence check in the code.  Vectors are an arbitrary type parameter `V`,
since no claim inspects vector arithmetic.  Python exceptions are modelled
with `Except String`.
-/

/-- A chunk record as produced by `DocumentChunker.chunk_folder` and stored in
the `<prefix>_metadata.json` / `<prefix>_chunks.json` interchange files:
`{"source_file": ..., "chunk_sequence_id": ..., "content": ...}`. -/
structure Chunk where
  source_file : String
  chunk_sequence_id : Nat
  content : String
deriving Repr, DecidableEq

/-- The inner loop of `chunk_folder`: `for i, chunk_text in enumerate(chunks)`
appends `{"source_file": txt_path.name, "chunk_sequence_id": i + 1,
"content": chunk_text}`.  `i` is the running `enumerate` index. -/
def chunkFileAux (name : String) : Nat → List String → List Chunk
  | _, [] => []
  | i, c :: cs => ⟨name, i + 1, c⟩ :: chunkFileAux name (i + 1) cs

/-- Chunks produced from one `.txt` file: split its content with the text
splitter, then tag each piece (splitter = `RecursiveCharacterTextSplitter
.split_text`, an external capability, passed as a parameter). -/
def chunkFile (split : String → List String) (name content : String) : List Chunk :=
  chunkFileAux name 0 (split content)

/-- `DocumentChunker.chunk_folder`: if no `.txt` files are found return `[]`,
otherwise accumulate the chunks of every file (a file is a pair
`(name, content)`) into `all_chunks` in order. -/
def chunk_folder (split : String → List String) (files : List (String × String)) : List Chunk :=
  if files.isEmpty then []
  else files.foldl (fun all_chunks f => all_chunks ++ chunkFile split f.1 f.2) []

/-- One record of a ChromaDB collection: `collection.add` receives parallel
lists of ids, documents, metadatas (here only the `source` field) and
embedding vectors. -/
structure IndexRecord (V : Type) where
  id : String
  document : String
  source : String
  vector : V
deriving Repr, DecidableEq

/-- A ChromaDB collection, as the ordered list of records inserted so far. -/
abbrev DbCollection (V : Type) := List (IndexRecord V)

/-- A ChromaDB persistent client: named collections. -/
structure DbClient (V : Type) where
  collections : List (String × DbCollection V)
deriving Repr, DecidableEq

/-- Membership test `[c.name for c in self.client.list_collections()]`. -/
def DbClient.hasCol {V : Type} (c : DbClient V) (name : String) : Bool :=
  c.collections.any (fun p => p.1 = name)

/-- Models `self.client.delete_collection(name=collection_name)`. -/
def DbClient.deleteCol {V : Type} (c : DbClient V) (name : String) : DbClient V :=
  ⟨c.collections.filter (fun p => ¬ p.1 = name)⟩

/-- Look up a named collection; an absent name reads as the empty collection. -/
def DbClient.getCol {V : Type} (c : DbClient V) (name : String) : DbCollection V :=
  match c.collections.find? (fun p => p.1 = name) with
  | some p => p.2
  | none => []

/-- Models `self.client.get_or_create_collection(name=collection_name)`: return the
existing collection, or create (and persist) an empty one. -/
def DbClient.getOrCreate {V : Type} (c : DbClient V) (name : String) :
    DbClient V × DbCollection V :=
  match c.collections.find? (fun p => p.1 = name) with
  | some p => (c, p.2)
  | none => (⟨(name, ([] : DbCollection V)) :: c.collections⟩, [])

/-- Write back the (mutated) contents of a named collection. -/
def DbClient.setCol {V : Type} (c : DbClient V) (name : String) (col : DbCollection V) :
    DbClient V :=
  ⟨c.collections.map (fun p => if p.1 = name then (name, col) else p)⟩

/-- The constant `batch_size = 100` of `_populate_collection`. -/
def batchSize : Nat := 100

/-- Zip the four parallel argument lists of one `collection.add` call into
records (positional pairing; stops at the shortest list). -/
def zipRecords {V : Type} : List String → List String → List String → List V →
    List (IndexRecord V)
  | i :: is, d :: ds, m :: ms, v :: vs => ⟨i, d, m, v⟩ :: zipRecords is ds ms vs
  | _, _, _, _ => []

/-- The batching loop of `_populate_collection`:
`for i in range(0, len(documents_to_add), batch_size): collection.add(...)`.
Each iteration takes the next `batchSize`-wide slice of the four parallel
lists; ChromaDB's `add` raises when the slices disagree in length.  The loop
is driven by `documents_to_add` (slicing a shorter `embeddings` array yields a
shorter or empty slice, a longer one is never iterated past the documents).
Returns the grown collection together with the list of per-call batches. -/
def addLoop {V : Type} (col : DbCollection V) (embs : List V)
    (docs metas ids : List String) :
    Except String (DbCollection V × List (List (IndexRecord V))) :=
  if h : docs = [] then
    .ok (col, [])
  else
    if (embs.take batchSize).length = (docs.take batchSize).length ∧
        (metas.take batchSize).length = (docs.take batchSize).length ∧
        (ids.take batchSize).length = (docs.take batchSize).length then
      let batch := zipRecords (ids.take batchSize) (docs.take batchSize)
        (metas.take batchSize) (embs.take batchSize)
      match addLoop (col ++ batch) (embs.drop batchSize) (docs.drop batchSize)
          (metas.drop batchSize) (ids.drop batchSize) with
      | .ok (col', log) => .ok (col', batch :: log)
      | .error e => .error e
    else
      .error "chromadb add: unequal lengths"
termination_by docs.length
decreasing_by
  have hpos : 0 < docs.length := List.length_pos.mpr h
  simp only [List.length_drop, batchSize]
  omega

/-- Models `DatabaseManager._populate_collection`: if either source file is missing,
print an error and return (the collection is left untouched and no exception
is raised); otherwise load both files, build the parallel lists
`documents_to_add`, `metadatas_to_add` (the `source` field) and `ids_to_add`
(`str(uuid.uuid4())` per record — modelled as an id generator `idGen` indexed
by position, independent of content), and add them in batches.  Returns the
grown collection and the batch log. -/
def populate_collection {V : Type} (idGen : Nat → String) (col : DbCollection V)
    (embeddings : Option (List V)) (metadata : Option (List Chunk)) :
    Except String (DbCollection V × List (List (IndexRecord V))) :=
  match embeddings, metadata with
  | some embs, some md =>
    let documents_to_add := md.map (fun item => item.content)
    let metadatas_to_add := md.map (fun item => item.source_file)
    let ids_to_add := (List.range documents_to_add.length).map idGen
    addLoop col embs documents_to_add metadatas_to_add ids_to_add
  | _, _ => .ok (col, [])

/-- The record list `_populate_collection` constructs from equal-length
sources: the i-th record is `(idGen i, metadata[i].content,
metadata[i].source_file, embeddings[i])`. -/
def buildRecords {V : Type} (idGen : Nat → String) (embs : List V)
    (md : List Chunk) : List (IndexRecord V) :=
  zipRecords ((List.range (md.map (fun item => item.content)).length).map idGen)
    (md.map (fun item => item.content)) (md.map (fun item => item.source_file)) embs

/-- Models `DatabaseManager.setup_collection`: optionally delete a pre-existing
collection of that name, get-or-create it, and populate it only when its
`count()` is zero; otherwise skip population and return it as is. -/
def setup_collection {V : Type} (idGen : Nat → String) (client : DbClient V)
    (collection_name : String) (embeddings : Option (List V))
    (metadata : Option (List Chunk)) (force_recreate : Bool) :
    Except String (DbClient V × DbCollection V) :=
  let client1 := if force_recreate && client.hasCol collection_name then
    client.deleteCol collection_name else client
  let cc := client1.getOrCreate collection_name
  if cc.2.length = 0 then
    match populate_collection idGen cc.2 embeddings metadata with
    | .ok (col', _) => .ok ((cc.1).setCol collection_name col', col')
    | .error e => .error e
  else
    .ok (cc.1, cc.2)

/-- Applies `setup_collection` with its Python default `force_recreate=True`. -/
def setup_collection_default {V : Type} (idGen : Nat → String) (client : DbClient V)
    (collection_name : String) (embeddings : Option (List V))
    (metadata : Option (List Chunk)) :
    Except String (DbClient V × DbCollection V) :=
  setup_collection idGen client collection_name embeddings metadata true

/-- The three supported LLM providers of `Chatbot`. -/
inductive Provider
  | google
  | openrouter
  | ollama
deriving Repr, DecidableEq

/-- Models `self.provider.upper()` as used in the error message of
`_generate_answer`. -/
def Provider.upper : Provider → String
  | .google => "GOOGLE"
  | .openrouter => "OPENROUTER"
  | .ollama => "OLLAMA"

/-- The system message the openrouter/ollama chat path sends:
`{"role": "system", "content": ...}`. -/
def SYSTEM_MESSAGE : String :=
  "Anda adalah asisten Q&A yang menjawab berdasarkan konteks."

/-- Segment of `Chatbot.PROMPT_TEMPLATE` up to the `context` placeholder. -/
def PROMPT_PRE : String :=
  "\n    Berdasarkan kumpulan konteks di bawah ini, jawablah pertanyaan berikut.\n    Jawablah dengan jelas, ringkas, dan hanya berdasarkan informasi dari konteks yang diberikan.\n    Jika informasi tidak ditemukan dalam konteks, katakan \x22Maaf, informasi tersebut tidak ditemukan dalam dokumen saya.\x22\n\n    Kumpulan Konteks:\n    ---\n    "

/-- Segment of `Chatbot.PROMPT_TEMPLATE` between the `context` and `query`
placeholders. -/
def PROMPT_MID : String := "\n    ---\n\n    Pertanyaan:\n    "

/-- Segment of `Chatbot.PROMPT_TEMPLATE` after the `query` placeholder. -/
def PROMPT_SUF : String := "\n    "

/-- Models `self.PROMPT_TEMPLATE.format(context=context, query=query)`. -/
def formatPromptTemplate (context query : String) : String :=
  PROMPT_PRE ++ context ++ PROMPT_MID ++ query ++ PROMPT_SUF

/-- A request to an LLM backend: Google's single-prompt
`generate_content(prompt)`, or the OpenAI-style chat completion with a system
and a user message. -/
inductive LLMRequest
  | generateContent (prompt : String)
  | chatCompletion (model systemMsg userMsg : String)
deriving Repr, DecidableEq

/-- The request each provider branch of `_generate_answer` issues for a given
final prompt string. -/
def llmRequestFor (provider : Provider) (modelName prompt : String) : LLMRequest :=
  match provider with
  | .google => .generateContent prompt
  | .openrouter => .chatCompletion modelName SYSTEM_MESSAGE prompt
  | .ollama => .chatCompletion modelName SYSTEM_MESSAGE prompt

/-- Models `Chatbot._generate_answer`: format the prompt template, call the provider
(the network call `llm` is a parameter; `.ok` carries the response text,
`.error` a raised exception's message), strip the response; any exception in
the `try` block is converted to the error-message string
`"Terjadi kesalahan saat memanggil API {provider}: {e}"` returned as the
answer. -/
def generate_answer (llm : LLMRequest → Except String String) (provider : Provider)
    (modelName context query : String) : String :=
  let prompt := formatPromptTemplate context query
  match llm (llmRequestFor provider modelName prompt) with
  | .ok text => text.trim
  | .error e => "Terjadi kesalahan saat memanggil API " ++ provider.upper ++ ": " ++ e

/-- Python `sep.join(pieces)`. -/
def joinStr (sep : String) : List String → String
  | [] => ""
  | [s] => s
  | s :: s2 :: rest => s ++ sep ++ joinStr sep (s2 :: rest)

/-- Models `Chatbot._retrieve_context`: embed the query (`embed`, the sentence
transformer, may raise), query the collection (`queryIdx`, ChromaDB's
nearest-neighbour search, may raise), and join the returned documents as
`"\n".join(f"- {doc}" for doc in retrieved_docs)`.  No exception handling. -/
def retrieve_context {V : Type} (embed : String → Except String V)
    (queryIdx : V → Nat → Except String (List String))
    (query_text : String) (n_results : Nat) : Except String String := do
  let query_embedding ← embed query_text
  let retrieved_docs ← queryIdx query_embedding n_results
  pure (joinStr "\n" (retrieved_docs.map (fun doc => "- " ++ doc)))

/-- Models `Chatbot.ask`: retrieve context (errors propagate), then generate the
answer (never raises: provider errors become the answer string). -/
def ask {V : Type} (embed : String → Except String V)
    (queryIdx : V → Nat → Except String (List String))
    (llm : LLMRequest → Except String String) (provider : Provider)
    (modelName query_text : String) (k_results : Nat) : Except String String := do
  let context ← retrieve_context embed queryIdx query_text k_results
  pure (generate_answer llm provider modelName context query_text)

/-- The bulleted-list context as the specification words it: each document on
its own line prefixed by a dash and space, lines joined by newlines, in the
given order. -/
def bulletedListSpec : List String → String
  | [] => ""
  | [d] => "- " ++ d
  | d :: d2 :: rest => "- " ++ d ++ "\n" ++ bulletedListSpec (d2 :: rest)

/-- The environment values `_setup_llm` reads with `os.getenv` (a `none`
means the variable is unset). -/
structure Env where
  google_api_key : Option String
  openrouter_api_key : Option String
  llm_model_google : Option String
  llm_model_openrouter : Option String
  llm_model_ollama : Option String
deriving Repr, DecidableEq

/-- Python truthiness of an `os.getenv` result: `None` and the empty string
are falsy. -/
def truthy : Option String → Bool
  | none => false
  | some s => !(s = "")

/-- Python `a or b` for an optional string `a` and a string `b`. -/
def pyOr (a : Option String) (b : String) : String :=
  match a with
  | some s => if s = "" then b else s
  | none => b

/-- Models `os.getenv(var, default)`. -/
def getenvD (v : Option String) (dflt : String) : String := v.getD dflt

/-- The LLM client `_setup_llm` constructs: `genai.GenerativeModel` after
`genai.configure(api_key=...)`, or an `openai.OpenAI` client with a base URL
and API key.  Construction performs no network call. -/
inductive LLMClientConfig
  | genaiModel (api_key model_name : String)
  | openaiCompat (base_url api_key model_name : String)
deriving Repr, DecidableEq

/-- Models `Chatbot._setup_llm`: validate the provider tag and its required
credential, resolve the model name (explicit argument, else environment
value, else per-provider default), and build the client configuration.
Raises `ValueError` (modelled as `.error`) for a missing credential or an
unsupported provider tag. -/
def setup_llm (env : Env) (provider : String) (llm_model_name : Option String) :
    Except String LLMClientConfig :=
  if provider = "google" then
    if truthy env.google_api_key then
      .ok (.genaiModel (env.google_api_key.getD "")
        (pyOr llm_model_name (getenvD env.llm_model_google "gemini-1.5-flash-latest")))
    else
      .error "GOOGLE_API_KEY tidak ditemukan di .env"
  else if provider = "openrouter" then
    if truthy env.openrouter_api_key then
      .ok (.openaiCompat "https://openrouter.ai/api/v1" (env.openrouter_api_key.getD "")
        (pyOr llm_model_name (getenvD env.llm_model_openrouter "meta-llama/llama-3-8b-instruct")))
    else
      .error "OPENROUTER_API_KEY tidak ditemukan di .env"
  else if provider = "ollama" then
    .ok (.openaiCompat "http://localhost:11434/v1" "ollama"
      (pyOr llm_model_name (getenvD env.llm_model_ollama "gemma:2b")))
  else
    .error ("Provider '" ++ provider ++ "' tidak didukung.")

/-- A concrete injective id generator used by closed witnesses (stands in for
`str(uuid.uuid4())`, whose model is any injective fresh-token supply). -/
def idGen0 : Nat → String := fun n => String.mk (List.replicate n 'a')

/-! ### Helper lemmas -/

theorem chunkFileAux_map_source (name : String) :
    ∀ (l : List String) (i : Nat),
      (chunkFileAux name i l).map Chunk.source_file = List.replicate l.length name := by
  intro l
  induction l with
  | nil => intro i; rfl
  | cons c cs ih =>
    intro i
    simp [chunkFileAux, List.replicate_succ, ih]

theorem chunkFileAux_map_seq (name : String) :
    ∀ (l : List String) (i : Nat),
      (chunkFileAux name i l).map Chunk.chunk_sequence_id = List.range' (i + 1) l.length := by
  intro l
  induction l with
  | nil => intro i; rfl
  | cons c cs ih =>
    intro i
    have hr := List.range'_succ (i + 1) cs.length 1
    simp only [chunkFileAux, List.map_cons, List.length_cons, ih (i + 1)]
    simpa using hr.symm

theorem chunkFileAux_map_content (name : String) :
    ∀ (l : List String) (i : Nat),
      (chunkFileAux name i l).map Chunk.content = l := by
  intro l
  induction l with
  | nil => intro i; rfl
  | cons c cs ih =>
    intro i
    simp [chunkFileAux, ih]

theorem foldl_append_eq_flatMap {α β : Type} (g : α → List β) :
    ∀ (fs : List α) (acc : List β),
      fs.foldl (fun a f => a ++ g f) acc = acc ++ fs.flatMap g := by
  intro fs
  induction fs with
  | nil => intro acc; simp
  | cons f fs ih =>
    intro acc
    simp [List.foldl_cons, ih, List.flatMap_cons]

/-! ### C7 — chunk_folder metadata -/

/-- C7: every chunk produced from a `.txt` file carries that file's name as
`source_file`, the `chunk_sequence_id`s of one file's chunks are the
contiguous integers `1, 2, ...` in document order (and the contents are the
split pieces in order); `chunk_folder` is the per-file chunks concatenated in
order, and a folder with no `.txt` files or whose files all split to nothing
yields `[]`, not an error. -/
theorem chunk_folder_spec (split : String → List String) (files : List (String × String)) :
    chunk_folder split files = files.flatMap (fun f => chunkFile split f.1 f.2)
    ∧ (∀ name content, (chunkFile split name content).map Chunk.source_file
        = List.replicate (split content).length name)
    ∧ (∀ name content, (chunkFile split name content).map Chunk.chunk_sequence_id
        = List.range' 1 (split content).length)
    ∧ (∀ name content, (chunkFile split name content).map Chunk.content = split content)
    ∧ ((∀ f ∈ files, split f.2 = []) → chunk_folder split files = []) := by
  have hfold : chunk_folder split files = files.flatMap (fun f => chunkFile split f.1 f.2) := by
    unfold chunk_folder
    by_cases hf : files.isEmpty
    · rw [if_pos hf]
      rw [List.isEmpty_iff] at hf
      subst hf
      rfl
    · rw [if_neg hf]
      simpa using foldl_append_eq_flatMap (fun f => chunkFile split f.1 f.2) files []
  refine ⟨hfold, ?_, ?_, ?_, ?_⟩
  · intro name content
    exact chunkFileAux_map_source name (split content) 0
  · intro name content
    exact chunkFileAux_map_seq name (split content) 0
  · intro name content
    exact chunkFileAux_map_content name (split content) 0
  · intro hnil
    rw [hfold, List.flatMap_eq_nil_iff]
    intro f hf
    unfold chunkFile
    rw [hnil f hf]
    rfl

/-- Closed instance of C7: a folder whose only file splits to nothing yields
no chunks, and a two-piece file gets sequence ids `[1, 2]`. -/
theorem chunk_folder_spec_witness :
    ((∀ f ∈ [("a.txt", "")], (fun s : String => if s = "" then ([] : List String) else [s, s]) f.2 = [])
      ∧ chunk_folder (fun s : String => if s = "" then ([] : List String) else [s, s]) [("a.txt", "")] = [])
    ∧ (chunkFile (fun s : String => if s = "" then ([] : List String) else [s, s]) "b.txt" "hi").map
        Chunk.chunk_sequence_id = List.range' 1 2 := by
  refine ⟨⟨by decide, ?_⟩, ?_⟩
  · exact (chunk_folder_spec (fun s : String => if s = "" then ([] : List String) else [s, s])
      [("a.txt", "")]).2.2.2.2 (by decide)
  · have h := (chunk_folder_spec (fun s : String => if s = "" then ([] : List String) else [s, s])
      [("a.txt", "")]).2.2.1 "b.txt" "hi"
    simpa using h

theorem zipRecords_length_le {V : Type} :
    ∀ (ids docs metas : List String) (vs : List V),
      (zipRecords ids docs metas vs).length ≤ ids.length := by
  intro ids
  induction ids with
  | nil => intro docs metas vs; simp [zipRecords]
  | cons i is ih =>
    intro docs metas vs
    cases docs with
    | nil => simp [zipRecords]
    | cons d ds =>
      cases metas with
      | nil => simp [zipRecords]
      | cons m ms =>
        cases vs with
        | nil => simp [zipRecords]
        | cons v vs' =>
          simp only [zipRecords, List.length_cons]
          exact Nat.succ_le_succ (ih ds ms vs')

theorem zipRecords_length_eq {V : Type} :
    ∀ (docs ids metas : List String) (vs : List V),
      ids.length = docs.length → metas.length = docs.length → vs.length = docs.length →
      (zipRecords ids docs metas vs).length = docs.length := by
  intro docs
  induction docs with
  | nil =>
    intro ids metas vs h1 h2 h3
    simp only [List.length_nil, List.length_eq_zero] at h1 h2 h3
    subst h1; subst h2; subst h3
    rfl
  | cons d ds ih =>
    intro ids metas vs h1 h2 h3
    cases ids with
    | nil => simp at h1
    | cons i is =>
      cases metas with
      | nil => simp at h2
      | cons m ms =>
        cases vs with
        | nil => simp at h3
        | cons v vs' =>
          simp only [List.length_cons, Nat.succ.injEq] at h1 h2 h3
          simp only [zipRecords, List.length_cons]
          rw [ih is ms vs' h1 h2 h3]

theorem zipRecords_split {V : Type} (n : Nat) :
    ∀ (ids docs metas : List String) (vs : List V),
      zipRecords ids docs metas vs
        = zipRecords (ids.take n) (docs.take n) (metas.take n) (vs.take n)
          ++ zipRecords (ids.drop n) (docs.drop n) (metas.drop n) (vs.drop n) := by
  induction n with
  | zero => intro ids docs metas vs; simp [zipRecords]
  | succ n ih =>
    intro ids docs metas vs
    cases ids with
    | nil => simp [zipRecords]
    | cons i is =>
      cases docs with
      | nil => simp [zipRecords]
      | cons d ds =>
        cases metas with
        | nil => simp [zipRecords]
        | cons m ms =>
          cases vs with
          | nil => simp [zipRecords]
          | cons v vs' =>
            simp only [List.take_succ_cons, List.drop_succ_cons, zipRecords, List.cons_append]
            rw [ih is ds ms vs']

theorem zipRecords_getElem?_of_some {V : Type} :
    ∀ (ids docs metas : List String) (vs : List V) (n : Nat) (a b c : String) (d : V),
      ids[n]? = some a → docs[n]? = some b → metas[n]? = some c → vs[n]? = some d →
      (zipRecords ids docs metas vs)[n]? = some ⟨a, b, c, d⟩ := by
  intro ids
  induction ids with
  | nil => intro docs metas vs n a b c d h1; simp at h1
  | cons i is ih =>
    intro docs metas vs n a b c d h1 h2 h3 h4
    cases docs with
    | nil => simp at h2
    | cons dd ds =>
      cases metas with
      | nil => simp at h3
      | cons m ms =>
        cases vs with
        | nil => simp at h4
        | cons v vs' =>
          cases n with
          | zero =>
            simp only [List.getElem?_cons_zero, Option.some.injEq] at h1 h2 h3 h4
            subst h1; subst h2; subst h3; subst h4
            simp [zipRecords]
          | succ n =>
            simp only [List.getElem?_cons_succ] at h1 h2 h3 h4
            simpa [zipRecords] using ih ds ms vs' n a b c d h1 h2 h3 h4

theorem zipRecords_map_id {V : Type} :
    ∀ (docs ids metas : List String) (vs : List V),
      ids.length = docs.length → metas.length = docs.length → vs.length = docs.length →
      (zipRecords ids docs metas vs).map (fun r => r.id) = ids := by
  intro docs
  induction docs with
  | nil =>
    intro ids metas vs h1 h2 h3
    simp only [List.length_nil, List.length_eq_zero] at h1 h2 h3
    subst h1; subst h2; subst h3
    rfl
  | cons d ds ih =>
    intro ids metas vs h1 h2 h3
    cases ids with
    | nil => simp at h1
    | cons i is =>
      cases metas with
      | nil => simp at h2
      | cons m ms =>
        cases vs with
        | nil => simp at h3
        | cons v vs' =>
          simp only [List.length_cons, Nat.succ.injEq] at h1 h2 h3
          simp only [zipRecords, List.map_cons]
          rw [ih is ms vs' h1 h2 h3]

theorem addLoop_ok {V : Type} :
    ∀ (n : Nat) (col : DbCollection V) (embs : List V) (docs metas ids : List String),
      docs.length ≤ n → embs.length = docs.length → metas.length = docs.length →
      ids.length = docs.length →
      ∃ log, addLoop col embs docs metas ids
          = .ok (col ++ zipRecords ids docs metas embs, log)
        ∧ log.flatten = zipRecords ids docs metas embs
        ∧ ∀ b ∈ log, b.length ≤ batchSize := by
  intro n
  induction n with
  | zero =>
    intro col embs docs metas ids hn h1 h2 h3
    have hd : docs = [] := by rw [← List.length_eq_zero]; omega
    subst hd
    have hids : ids = [] := by rw [← List.length_eq_zero]; simpa using h3
    subst hids
    refine ⟨[], ?_, rfl, by intro b hb; simp at hb⟩
    rw [addLoop]
    simp [zipRecords]
  | succ n ih =>
    intro col embs docs metas ids hn h1 h2 h3
    by_cases hd : docs = []
    · subst hd
      have hids : ids = [] := by rw [← List.length_eq_zero]; simpa using h3
      subst hids
      refine ⟨[], ?_, rfl, by intro b hb; simp at hb⟩
      rw [addLoop]
      simp [zipRecords]
    · have hcond : (embs.take batchSize).length = (docs.take batchSize).length ∧
          (metas.take batchSize).length = (docs.take batchSize).length ∧
          (ids.take batchSize).length = (docs.take batchSize).length := by
        simp [List.length_take, h1, h2, h3]
      have hdlen : (docs.drop batchSize).length ≤ n := by
        have hpos : 0 < docs.length := List.length_pos.mpr hd
        simp only [List.length_drop, batchSize]
        omega
      obtain ⟨log, hrec, hflat, hb⟩ := ih
        (col ++ zipRecords (ids.take batchSize) (docs.take batchSize)
          (metas.take batchSize) (embs.take batchSize))
        (embs.drop batchSize) (docs.drop batchSize) (metas.drop batchSize)
        (ids.drop batchSize) hdlen
        (by simp [List.length_drop, h1]) (by simp [List.length_drop, h2])
        (by simp [List.length_drop, h3])
      refine ⟨zipRecords (ids.take batchSize) (docs.take batchSize)
        (metas.take batchSize) (embs.take batchSize) :: log, ?_, ?_, ?_⟩
      · rw [addLoop]
        rw [dif_neg hd, if_pos hcond]
        simp only [hrec]
        rw [zipRecords_split batchSize ids docs metas embs, List.append_assoc]
      · simp only [List.flatten_cons, hflat]
        exact (zipRecords_split batchSize ids docs metas embs).symm
      · intro b hbmem
        rcases List.mem_cons.mp hbmem with hbe | hbl
        · subst hbe
          calc (zipRecords (ids.take batchSize) (docs.take batchSize)
                (metas.take batchSize) (embs.take batchSize)).length
              ≤ (ids.take batchSize).length := zipRecords_length_le _ _ _ _
            _ ≤ batchSize := by simp [List.length_take]
        · exact hb b hbl

theorem getElem?_some_lt {α : Type} {l : List α} {i : Nat} {a : α}
    (h : l[i]? = some a) : i < l.length := by
  by_contra hc
  push_neg at hc
  rw [List.getElem?_eq_none hc] at h
  exact Option.noConfusion h

/-! ### C5 — populate_collection builds exactly the zipped records -/

/-- C5: for equal-length embeddings and metadata of length `N`, populating an
empty collection succeeds and inserts exactly `N` records: the `i`-th record
carries `metadata[i].content` as its document, `metadata[i].source_file` as
its `source` metadata, `embeddings[i]` as its vector, and the `i`-th freshly
generated id (content-independent; pairwise distinct whenever the id supply
is injective, as `uuid4` tokens are modelled); insertion happens in input
order in consecutive batches of at most `batchSize = 100` records. -/
theorem populate_collection_spec {V : Type} (idGen : Nat → String) (embs : List V)
    (md : List Chunk) (hlen : embs.length = md.length) :
    ∃ log, populate_collection idGen ([] : DbCollection V) (some embs) (some md)
        = .ok (buildRecords idGen embs md, log)
      ∧ (buildRecords idGen embs md).length = md.length
      ∧ (∀ (i : Nat) (item : Chunk) (v : V), md[i]? = some item → embs[i]? = some v →
          (buildRecords idGen embs md)[i]? = some ⟨idGen i, item.content, item.source_file, v⟩)
      ∧ (Function.Injective idGen →
          ((buildRecords idGen embs md).map (fun r => r.id)).Nodup)
      ∧ log.flatten = buildRecords idGen embs md
      ∧ (∀ b ∈ log, b.length ≤ batchSize) := by
  have hdocs : (md.map (fun item => item.content)).length = md.length := List.length_map md _
  have hmetas : (md.map (fun item => item.source_file)).length = md.length := List.length_map md _
  have hids : (((List.range (md.map (fun item => item.content)).length).map idGen)).length
      = md.length := by simp
  obtain ⟨log, heq, hflat, hb⟩ := addLoop_ok (md.map (fun item => item.content)).length
    ([] : DbCollection V) embs (md.map (fun item => item.content))
    (md.map (fun item => item.source_file))
    ((List.range (md.map (fun item => item.content)).length).map idGen)
    le_rfl (by omega) (by omega) (by simp)
  have hbr : buildRecords idGen embs md
      = zipRecords ((List.range (md.map (fun item => item.content)).length).map idGen)
        (md.map (fun item => item.content)) (md.map (fun item => item.source_file)) embs := rfl
  have hpop : populate_collection idGen ([] : DbCollection V) (some embs) (some md)
      = addLoop ([] : DbCollection V) embs (md.map (fun item => item.content))
        (md.map (fun item => item.source_file))
        ((List.range (md.map (fun item => item.content)).length).map idGen) := rfl
  refine ⟨log, ?_, ?_, ?_, ?_, ?_, hb⟩
  · rw [hpop, heq, hbr]
    simp
  · rw [hbr]
    rw [zipRecords_length_eq (md.map (fun item => item.content)) _ _ _ (by simp) (by omega)
      (by omega)]
    exact hdocs
  · intro i item v hmd hemb
    have hilt : i < md.length := getElem?_some_lt hmd
    rw [hbr]
    refine zipRecords_getElem?_of_some _ _ _ _ i (idGen i) item.content item.source_file v
      ?_ ?_ ?_ hemb
    · rw [List.getElem?_map, List.getElem?_range (by omega)]
      rfl
    · rw [List.getElem?_map, hmd]
      rfl
    · rw [List.getElem?_map, hmd]
      rfl
  · intro hinj
    rw [hbr, zipRecords_map_id (md.map (fun item => item.content)) _ _ _ (by simp) (by omega)
      (by omega)]
    exact List.Nodup.map hinj (List.nodup_range _)
  · rw [hbr]
    exact hflat

theorem idGen0_injective : Function.Injective idGen0 := by
  intro a b h
  have h2 := congrArg (fun s : String => s.data.length) h
  simpa [idGen0] using h2

/-- Closed instance of C5 at two records: the build succeeds, produces two
records, and their ids are distinct. -/
theorem populate_collection_spec_witness :
    ([10, 20] : List Nat).length = ([⟨"f", 1, "x"⟩, ⟨"f", 2, "y"⟩] : List Chunk).length
    ∧ (buildRecords idGen0 ([10, 20] : List Nat) [⟨"f", 1, "x"⟩, ⟨"f", 2, "y"⟩]).length = 2
    ∧ ((buildRecords idGen0 ([10, 20] : List Nat)
        [⟨"f", 1, "x"⟩, ⟨"f", 2, "y"⟩]).map (fun r => r.id)).Nodup := by
  obtain ⟨log, heq, hl, hidx, hnd, hfl, hb⟩ := populate_collection_spec idGen0
    ([10, 20] : List Nat) [⟨"f", 1, "x"⟩, ⟨"f", 2, "y"⟩] rfl
  exact ⟨rfl, hl, hnd idGen0_injective⟩

theorem find?_none_of_hasCol_false {V : Type} (client : DbClient V) (name : String)
    (h : client.hasCol name = false) :
    client.collections.find? (fun p => p.1 = name) = none := by
  rw [List.find?_eq_none]
  intro x hx
  unfold DbClient.hasCol at h
  rw [List.any_eq_false] at h
  exact h x hx

theorem hasCol_deleteCol_false {V : Type} (client : DbClient V) (name : String) :
    (client.deleteCol name).hasCol name = false := by
  unfold DbClient.deleteCol DbClient.hasCol
  rw [List.any_eq_false]
  intro x hx
  rw [List.mem_filter] at hx
  simpa using hx.2

theorem getOrCreate_fresh {V : Type} (client : DbClient V) (name : String)
    (h : client.hasCol name = false) :
    client.getOrCreate name = (⟨(name, ([] : DbCollection V)) :: client.collections⟩, []) := by
  unfold DbClient.getOrCreate
  rw [find?_none_of_hasCol_false client name h]

theorem getOrCreate_existing {V : Type} (client : DbClient V) (name : String)
    (h : 0 < (client.getCol name).length) :
    client.getOrCreate name = (client, client.getCol name) := by
  unfold DbClient.getCol at h
  unfold DbClient.getOrCreate DbClient.getCol
  cases hf : client.collections.find? (fun p => p.1 = name) with
  | none =>
    rw [hf] at h
    simp at h
  | some p => rfl

theorem setCol_fresh {V : Type} (cols : List (String × DbCollection V)) (name : String)
    (hno : ∀ p ∈ cols, ¬ p.1 = name) (col newcol : DbCollection V) :
    DbClient.setCol ⟨(name, col) :: cols⟩ name newcol = ⟨(name, newcol) :: cols⟩ := by
  unfold DbClient.setCol
  congr 1
  rw [List.map_cons]
  congr 1
  · simp
  · have hpt : ∀ x ∈ cols, (fun p : String × DbCollection V =>
        if p.1 = name then (name, newcol) else p) x = id x := by
      intro x hx
      simp only [id]
      exact if_neg (hno x hx)
    rw [List.map_congr_left hpt, List.map_id]

theorem getCol_cons_self {V : Type} (cols : List (String × DbCollection V)) (name : String)
    (col : DbCollection V) :
    DbClient.getCol ⟨(name, col) :: cols⟩ name = col := by
  unfold DbClient.getCol
  rw [List.find?_cons_of_pos _ (by simp)]

/-! ### C2 — idempotent rebuild avoidance -/

/-- C2: for a non-empty collection, `setup_collection` with
`force_recreate = False` performs no insertion: the client is unchanged, the
existing collection contents are returned unmodified, and this holds for any
incoming embeddings/metadata sources (matching or not). -/
theorem setup_collection_skip {V : Type} (idGen : Nat → String) (client : DbClient V)
    (name : String) (embeddings : Option (List V)) (metadata : Option (List Chunk))
    (h : 0 < (client.getCol name).length) :
    setup_collection idGen client name embeddings metadata false
      = .ok (client, client.getCol name) := by
  unfold setup_collection
  simp only [Bool.false_and, Bool.false_eq_true, if_false, getOrCreate_existing client name h]
  rw [if_neg (by omega)]

/-- Closed instance of C2: a one-record collection is returned as is, with the
client unchanged, even though the incoming sources describe different data. -/
theorem setup_collection_skip_witness :
    0 < ((⟨[("c", [⟨"i", "d", "s", (0 : Nat)⟩])]⟩ : DbClient Nat).getCol "c").length
    ∧ setup_collection idGen0 (⟨[("c", [⟨"i", "d", "s", (0 : Nat)⟩])]⟩ : DbClient Nat) "c"
        (some [(5 : Nat)]) (some [⟨"g", 1, "z"⟩]) false
      = .ok (⟨[("c", [⟨"i", "d", "s", (0 : Nat)⟩])]⟩,
          (⟨[("c", [⟨"i", "d", "s", (0 : Nat)⟩])]⟩ : DbClient Nat).getCol "c") := by
  refine ⟨by decide, ?_⟩
  exact setup_collection_skip idGen0 _ "c" (some [(5 : Nat)]) (some [⟨"g", 1, "z"⟩]) (by decide)

/-! ### C9 — default force_recreate=True rebuilds from scratch -/

/-- C9: `force_recreate` defaults to `True`, so a default build against any
prior client state (whether or not a collection of that name, possibly
non-empty, already exists) deletes any existing collection and fully
repopulates it from the sources with freshly generated ids: the returned
collection is exactly `buildRecords`, independent of the prior contents, and
the count-based skip path is never taken. -/
theorem setup_collection_default_recreates {V : Type} (idGen : Nat → String)
    (client : DbClient V) (name : String) (embs : List V) (md : List Chunk)
    (hlen : embs.length = md.length) :
    ∃ client', setup_collection_default idGen client name (some embs) (some md)
        = .ok (client', buildRecords idGen embs md)
      ∧ client'.getCol name = buildRecords idGen embs md := by
  obtain ⟨log, hpop, hl, hidx, hnd, hfl, hbb⟩ := populate_collection_spec idGen embs md hlen
  have h1 : (if true && client.hasCol name then client.deleteCol name else client).hasCol name
      = false := by
    cases hc : client.hasCol name with
    | false => simp [hc]
    | true => simp [hc, hasCol_deleteCol_false]
  set client1 := if true && client.hasCol name then client.deleteCol name else client with hc1
  have hno : ∀ p ∈ client1.collections, ¬ p.1 = name := by
    have h2 := h1
    unfold DbClient.hasCol at h2
    rw [List.any_eq_false] at h2
    intro p hp
    simpa using h2 p hp
  refine ⟨⟨(name, buildRecords idGen embs md) :: client1.collections⟩, ?_,
    getCol_cons_self _ _ _⟩
  unfold setup_collection_default setup_collection
  rw [← hc1]
  simp only [getOrCreate_fresh client1 name h1, hpop, List.length_nil, ↓reduceIte]
  rw [setCol_fresh client1.collections name hno [] (buildRecords idGen embs md)]

/-- Closed instance of C9: a default rebuild against a client already holding
a non-empty collection named `c` replaces it entirely with the two freshly
built records. -/
theorem setup_collection_default_recreates_witness :
    ([1, 2] : List Nat).length = ([⟨"f", 1, "x"⟩, ⟨"f", 2, "y"⟩] : List Chunk).length
    ∧ ∃ client', setup_collection_default idGen0
        (⟨[("c", [⟨"old", "od", "os", (7 : Nat)⟩])]⟩ : DbClient Nat) "c"
        (some [1, 2]) (some [⟨"f", 1, "x"⟩, ⟨"f", 2, "y"⟩])
        = .ok (client', buildRecords idGen0 [1, 2] [⟨"f", 1, "x"⟩, ⟨"f", 2, "y"⟩])
      ∧ client'.getCol "c" = buildRecords idGen0 [1, 2] [⟨"f", 1, "x"⟩, ⟨"f", 2, "y"⟩] :=
  ⟨rfl, setup_collection_default_recreates idGen0
    (⟨[("c", [⟨"old", "od", "os", (7 : Nat)⟩])]⟩ : DbClient Nat) "c"
    [1, 2] [⟨"f", 1, "x"⟩, ⟨"f", 2, "y"⟩] rfl⟩

/-! ### C1 — missing/mismatched sources do not halt the build -/

/-- Counterexample to C1: with the embeddings source file missing,
`setup_collection` does not halt with a fatal input error — it returns an
`.ok` collection handle holding zero records (the population step merely
prints a message and returns). -/
theorem setup_collection_missing_file_counterexample :
    setup_collection idGen0 (⟨[]⟩ : DbClient Nat) "c" none (some [⟨"f", 1, "x"⟩]) true
      = .ok (⟨[("c", [])]⟩, []) := by
  rfl

/-- C1 amended: if the embeddings source file or the metadata source file is
missing, `_populate_collection` returns normally without inserting anything
(no exception), and `setup_collection` on a fresh collection name returns an
`.ok` handle holding no records; no embeddings/metadata length comparison is
performed before records are constructed. -/
theorem setup_collection_missing_source {V : Type} (idGen : Nat → String)
    (embeddings : Option (List V)) (metadata : Option (List Chunk))
    (hmiss : embeddings = none ∨ metadata = none) :
    (∀ col : DbCollection V, populate_collection idGen col embeddings metadata = .ok (col, []))
    ∧ (∀ (client : DbClient V) (name : String), client.hasCol name = false →
        setup_collection idGen client name embeddings metadata true
          = .ok (⟨(name, ([] : DbCollection V)) :: client.collections⟩, [])) := by
  have hpop : ∀ col : DbCollection V,
      populate_collection idGen col embeddings metadata = .ok (col, []) := by
    intro col
    rcases hmiss with he | hm
    · subst he
      cases metadata <;> rfl
    · subst hm
      cases embeddings <;> rfl
  refine ⟨hpop, ?_⟩
  intro client name h
  have hno : ∀ p ∈ client.collections, ¬ p.1 = name := by
    have h2 := h
    unfold DbClient.hasCol at h2
    rw [List.any_eq_false] at h2
    intro p hp
    simpa using h2 p hp
  unfold setup_collection
  simp only [Bool.true_and, h, Bool.false_eq_true, if_false,
    getOrCreate_fresh client name h, hpop, List.length_nil, ↓reduceIte]
  rw [setCol_fresh client.collections name hno [] []]

/-- Closed instance of the amended C1: a missing metadata source likewise
yields an `.ok` empty collection rather than an error. -/
theorem setup_collection_missing_source_witness :
    (⟨[]⟩ : DbClient Nat).hasCol "c" = false
    ∧ setup_collection idGen0 (⟨[]⟩ : DbClient Nat) "c" (some [(3 : Nat)]) none true
      = .ok (⟨[("c", [])]⟩, []) :=
  ⟨rfl, (setup_collection_missing_source idGen0 (some [(3 : Nat)]) none (Or.inr rfl)).2
    (⟨[]⟩ : DbClient Nat) "c" rfl⟩

theorem joinStr_bullets :
    ∀ docs : List String,
      joinStr "\n" (docs.map (fun doc => "- " ++ doc)) = bulletedListSpec docs := by
  intro docs
  induction docs with
  | nil => rfl
  | cons d rest ih =>
    cases rest with
    | nil => rfl
    | cons d2 rest2 =>
      simp only [List.map_cons] at ih ⊢
      rw [joinStr, bulletedListSpec, ih]

/-! ### C8 — prompt context is the bulleted list in retrieval order -/

/-- C8: whenever retrieval succeeds, the context string handed to generation
is exactly the retrieved documents rendered as a bulleted list (each document
on its own line prefixed by a dash and a space, lines joined by newlines), in
precisely the order the index returned them. -/
theorem retrieve_context_bulleted {V : Type} (embed : String → Except String V)
    (queryIdx : V → Nat → Except String (List String)) (q : String) (n : Nat)
    (v : V) (docs : List String)
    (h1 : embed q = .ok v) (h2 : queryIdx v n = .ok docs) :
    retrieve_context embed queryIdx q n = .ok (bulletedListSpec docs) := by
  unfold retrieve_context
  simp only [bind, Except.bind, h1, h2, pure, Except.pure]
  exact congrArg Except.ok (joinStr_bullets docs)

/-- Closed instance of C8: two documents, index order preserved. -/
theorem retrieve_context_bulleted_witness :
    retrieve_context (fun _ => Except.ok (0 : Nat)) (fun _ _ => Except.ok ["b", "a"]) "q" 2
      = .ok (bulletedListSpec ["b", "a"])
    ∧ bulletedListSpec ["b", "a"] = "- b" ++ "\n" ++ "- a" :=
  ⟨retrieve_context_bulleted (fun _ => Except.ok (0 : Nat)) (fun _ _ => Except.ok ["b", "a"])
    "q" 2 0 ["b", "a"] rfl rfl, rfl⟩

/-! ### C3 — two-sided error contract of ask -/

/-- C3: `ask` has a two-sided error contract.  If retrieval succeeds and the
provider call raises, the error is caught and returned as the answer string
(naming the provider and the underlying cause).  If instead the query
embedding or the index query raises, `ask` propagates that error — and the
result does not depend on the LLM call at all, so generation is never
invoked. -/
theorem ask_error_contract {V : Type} (embed : String → Except String V)
    (queryIdx : V → Nat → Except String (List String)) (provider : Provider)
    (modelName q : String) (k : Nat) :
    (∀ (v : V) (docs : List String) (e : String) (llm : LLMRequest → Except String String),
        embed q = .ok v → queryIdx v k = .ok docs →
        llm (llmRequestFor provider modelName
          (formatPromptTemplate (joinStr "\n" (docs.map (fun doc => "- " ++ doc))) q))
          = .error e →
        ask embed queryIdx llm provider modelName q k
          = .ok ("Terjadi kesalahan saat memanggil API " ++ provider.upper ++ ": " ++ e))
    ∧ (∀ (e : String) (llm : LLMRequest → Except String String),
        embed q = .error e →
        ask embed queryIdx llm provider modelName q k = .error e)
    ∧ (∀ (v : V) (e : String) (llm : LLMRequest → Except String String),
        embed q = .ok v → queryIdx v k = .error e →
        ask embed queryIdx llm provider modelName q k = .error e) := by
  refine ⟨?_, ?_, ?_⟩
  · intro v docs e llm h1 h2 h3
    unfold ask retrieve_context generate_answer
    simp only [bind, Except.bind, h1, h2, pure, Except.pure, h3]
  · intro e llm h1
    unfold ask retrieve_context
    simp only [bind, Except.bind, h1]
  · intro v e llm h1 h2
    unfold ask retrieve_context
    simp only [bind, Except.bind, h1, h2]

/-- Closed instances of C3: a generation-stage failure is returned as the
answer string; a retrieval-stage failure propagates as an error for an
arbitrary (never-consulted) LLM. -/
theorem ask_error_contract_witness :
    ask (fun _ => Except.ok (0 : Nat)) (fun _ _ => Except.ok ["d"])
        (fun _ => Except.error "boom") Provider.google "m" "q" 3
      = .ok ("Terjadi kesalahan saat memanggil API " ++ Provider.google.upper ++ ": " ++ "boom")
    ∧ ask (fun _ => (Except.error "down" : Except String Nat)) (fun _ _ => Except.ok [])
        (fun _ => Except.ok "hi") Provider.google "m" "q" 3
      = .error "down"
    ∧ ask (fun _ => Except.ok (0 : Nat)) (fun _ _ => Except.error "qfail")
        (fun _ => Except.ok "hi") Provider.ollama "m" "q" 3
      = .error "qfail" :=
  ⟨(ask_error_contract (fun _ => Except.ok (0 : Nat)) (fun _ _ => Except.ok ["d"])
      Provider.google "m" "q" 3).1 0 ["d"] "boom" (fun _ => Except.error "boom") rfl rfl rfl,
   (ask_error_contract (fun _ => (Except.error "down" : Except String Nat))
      (fun _ _ => Except.ok []) Provider.google "m" "q" 3).2.1 "down"
      (fun _ => Except.ok "hi") rfl,
   (ask_error_contract (fun _ => Except.ok (0 : Nat)) (fun _ _ => Except.error "qfail")
      Provider.ollama "m" "q" 3).2.2 0 "qfail" (fun _ => Except.ok "hi") rfl rfl⟩

/-! ### C10 — empty retrieval still generates -/

/-- C10: when the index query returns zero documents, retrieval succeeds with
the empty context string, generation is still invoked with that empty context
substituted into the prompt template, and `ask` returns whatever
`generate_answer` produces — it neither raises nor short-circuits. -/
theorem ask_empty_retrieval {V : Type} (embed : String → Except String V)
    (queryIdx : V → Nat → Except String (List String))
    (llm : LLMRequest → Except String String) (provider : Provider)
    (modelName q : String) (k : Nat) (v : V)
    (h1 : embed q = .ok v) (h2 : queryIdx v k = .ok []) :
    ask embed queryIdx llm provider modelName q k
      = .ok (generate_answer llm provider modelName "" q) := by
  unfold ask retrieve_context
  simp only [bind, Except.bind, h1, h2, pure, Except.pure, List.map_nil, joinStr]

/-- Closed instance of C10: an empty collection still reaches generation,
whose (failing) provider call is rendered as the answer for the empty-context
prompt. -/
theorem ask_empty_retrieval_witness :
    ask (fun _ => Except.ok (0 : Nat)) (fun _ _ => Except.ok ([] : List String))
        (fun _ => Except.error "down") Provider.ollama "m" "q" 5
      = .ok ("Terjadi kesalahan saat memanggil API " ++ Provider.ollama.upper ++ ": " ++ "down") := by
  have h := ask_empty_retrieval (fun _ => Except.ok (0 : Nat))
    (fun _ _ => Except.ok ([] : List String)) (fun _ => Except.error "down")
    Provider.ollama "m" "q" 5 0 rfl rfl
  rw [h]
  rfl

/-! ### C4 — provider setup credential contract -/

/-- C4: `_setup_llm` raises a configuration error exactly when the provider
tag is unsupported or its required credential is absent (absence in the
Python-falsy sense used by the code: unset or empty): google without
`GOOGLE_API_KEY` raises, openrouter without `OPENROUTER_API_KEY` raises,
ollama constructs with no credential, any other tag raises; conversely a
present credential makes google/openrouter construct.  Construction is pure —
no generation call is modelled or needed. -/
theorem setup_llm_credential_contract (env : Env) (m : Option String) :
    (env.google_api_key = none →
      setup_llm env "google" m = .error "GOOGLE_API_KEY tidak ditemukan di .env")
    ∧ (env.openrouter_api_key = none →
      setup_llm env "openrouter" m = .error "OPENROUTER_API_KEY tidak ditemukan di .env")
    ∧ (∃ cfg, setup_llm env "ollama" m = .ok cfg)
    ∧ (∀ p : String, p ≠ "google" → p ≠ "openrouter" → p ≠ "ollama" →
        setup_llm env p m = .error ("Provider '" ++ p ++ "' tidak didukung."))
    ∧ (truthy env.google_api_key = true → ∃ cfg, setup_llm env "google" m = .ok cfg)
    ∧ (truthy env.openrouter_api_key = true → ∃ cfg, setup_llm env "openrouter" m = .ok cfg) := by
  refine ⟨?_, ?_, ?_, ?_, ?_, ?_⟩
  · intro h
    unfold setup_llm
    rw [if_pos rfl, if_neg]
    rw [h]
    simp [truthy]
  · intro h
    unfold setup_llm
    rw [if_neg (by decide), if_pos rfl, if_neg]
    rw [h]
    simp [truthy]
  · unfold setup_llm
    rw [if_neg (by decide), if_neg (by decide), if_pos rfl]
    exact ⟨_, rfl⟩
  · intro p hg ho hl
    unfold setup_llm
    rw [if_neg hg, if_neg ho, if_neg hl]
  · intro h
    unfold setup_llm
    rw [if_pos rfl, if_pos h]
    exact ⟨_, rfl⟩
  · intro h
    unfold setup_llm
    rw [if_neg (by decide), if_pos rfl, if_pos h]
    exact ⟨_, rfl⟩

/-- Closed instances of C4: with no environment values set, google and
openrouter fail, ollama succeeds, and an unknown tag fails; with credentials
set, google succeeds. -/
theorem setup_llm_credential_contract_witness :
    setup_llm ⟨none, none, none, none, none⟩ "google" none
      = .error "GOOGLE_API_KEY tidak ditemukan di .env"
    ∧ setup_llm ⟨none, none, none, none, none⟩ "openrouter" none
      = .error "OPENROUTER_API_KEY tidak ditemukan di .env"
    ∧ (∃ cfg, setup_llm ⟨none, none, none, none, none⟩ "ollama" none = .ok cfg)
    ∧ setup_llm ⟨none, none, none, none, none⟩ "anthropic" none
      = .error ("Provider '" ++ "anthropic" ++ "' tidak didukung.")
    ∧ (∃ cfg, setup_llm ⟨some "k", none, none, none, none⟩ "google" none = .ok cfg) :=
  ⟨(setup_llm_credential_contract ⟨none, none, none, none, none⟩ none).1 rfl,
   (setup_llm_credential_contract ⟨none, none, none, none, none⟩ none).2.1 rfl,
   (setup_llm_credential_contract ⟨none, none, none, none, none⟩ none).2.2.1,
   (setup_llm_credential_contract ⟨none, none, none, none, none⟩ none).2.2.2.1 "anthropic"
     (by decide) (by decide) (by decide),
   (setup_llm_credential_contract ⟨some "k", none, none, none, none⟩ none).2.2.2.2.1 rfl⟩

/-! ### C6 — the google path sends the template alone, not system + prompt -/

/-- Counterexample to C6: the single prompt the google branch sends is not
the openrouter/ollama system instruction concatenated with the user prompt —
at `context = ""`, `query = ""` the two strings differ (already in length). -/
theorem google_prompt_not_system_concat :
    llmRequestFor Provider.google "m" (formatPromptTemplate "" "")
      ≠ LLMRequest.generateContent (SYSTEM_MESSAGE ++ formatPromptTemplate "" "") := by
  intro h
  have h2 : formatPromptTemplate "" "" = SYSTEM_MESSAGE ++ formatPromptTemplate "" "" := by
    simpa [llmRequestFor] using h
  have h3 := congrArg String.length h2
  rw [String.length_append] at h3
  have hS : 0 < SYSTEM_MESSAGE.length := by decide
  omega

/-- C6 amended: the google branch issues a single-prompt generation call
carrying exactly the filled prompt template — the same string the
openrouter/ollama branches send as the chat user message — while the separate
system message those branches send is not part of the google prompt (for no
context/query can the template equal the system message prepended to it). -/
theorem google_single_prompt (modelName context query : String) :
    llmRequestFor Provider.google modelName (formatPromptTemplate context query)
      = LLMRequest.generateContent (formatPromptTemplate context query)
    ∧ llmRequestFor Provider.openrouter modelName (formatPromptTemplate context query)
      = LLMRequest.chatCompletion modelName SYSTEM_MESSAGE (formatPromptTemplate context query)
    ∧ llmRequestFor Provider.ollama modelName (formatPromptTemplate context query)
      = LLMRequest.chatCompletion modelName SYSTEM_MESSAGE (formatPromptTemplate context query)
    ∧ formatPromptTemplate context query
      ≠ SYSTEM_MESSAGE ++ formatPromptTemplate context query := by
  refine ⟨rfl, rfl, rfl, ?_⟩
  intro h
  have h3 := congrArg String.length h
  rw [String.length_append] at h3
  have hS : 0 < SYSTEM_MESSAGE.length := by decide
  omega

/-- Closed instance of the amended C6: the google request carries the filled
template alone, which differs from the system message prepended to it. -/
theorem google_single_prompt_witness :
    llmRequestFor Provider.google "m" (formatPromptTemplate "" "q")
      = LLMRequest.generateContent (formatPromptTemplate "" "q")
    ∧ formatPromptTemplate "" "q" ≠ SYSTEM_MESSAGE ++ formatPromptTemplate "" "q" :=
  ⟨(google_single_prompt "m" "" "q").1, (google_single_prompt "m" "" "q").2.2.2⟩
